import Mathlib

/-!
Verification of the LLNL-NIST thermodynamic unit-conversion scripts.

The development shallowly embeds the unit-conversion engine, the atomic-mass
registry, the conversion-table builder and the table-lookup service of the
repository (files `scripts.py` and `NIST_Conversion.py`) into Lean.

Numbers are modelled over `ℚ`.  The physical constants from
`scipy.constants` are the exact decimal values of the 2019 SI definitions,
which is also the reading the specification uses when it speaks about exact
evaluation over the rationals/reals; IEEE-754 rounding of individual
operations is not modelled.
-/

/-! The physical constants used by the scripts, mirroring `scipy.constants`:
`k` (Boltzmann, 1.380649e-23), `N_A` (Avogadro, 6.02214076e23),
`e` (elementary charge, 1.602176634e-19) and `erg` (1e-7 joule). -/
namespace spc

def k : ℚ := 1380649 / 10 ^ 29

def N_A : ℚ := 602214076 * 10 ^ 15

def e : ℚ := 1602176634 / 10 ^ 28

def erg : ℚ := 1 / 10 ^ 7

end spc

/-! ## The Conversion Engine of `scripts.py` (lines 34-128)

Each Lean definition is the direct transcription of the same-named Python
function; Python's left-to-right evaluation of `*` and `/` chains agrees
with Lean's parsing of `*` and `/` at equal precedence. -/

namespace scripts

def Sconvert_JmolK_to_kBatom (entropy : ℚ) : ℚ :=
  entropy / (spc.k * spc.N_A)

def Sconvert_kBatom_to_JmolK (entropy : ℚ) : ℚ :=
  entropy * (spc.k * spc.N_A)

def Sconvert_erggK_to_kBatom (entropy atomic_mass : ℚ) : ℚ :=
  entropy * atomic_mass / (spc.k / spc.erg * spc.N_A)

def Sconvert_kBatom_to_erggK (entropy atomic_mass : ℚ) : ℚ :=
  entropy * spc.k / spc.erg * spc.N_A / atomic_mass

def Sconvert_JgK_to_kBatom (entropy atomic_mass : ℚ) : ℚ :=
  entropy * atomic_mass / (spc.k * spc.N_A)

def Sconvert_kBatom_to_JgK (entropy atomic_mass : ℚ) : ℚ :=
  entropy * spc.k * spc.N_A / atomic_mass

def Sconvert_MbarccgK_to_kBatom (entropy atomic_mass : ℚ) : ℚ :=
  entropy * atomic_mass * 10 ^ 5 / (spc.k * spc.N_A)

def Sconvert_kBatom_to_MbarccgK (entropy atomic_mass : ℚ) : ℚ :=
  entropy * spc.k * spc.N_A / (atomic_mass * 10 ^ 5)

def Sconvert_JmolK_to_JgK (entropy atomic_mass : ℚ) : ℚ :=
  entropy / atomic_mass

def Sconvert_JgK_to_JmolK (entropy atomic_mass : ℚ) : ℚ :=
  entropy * atomic_mass

def Sconvert_JgK_to_erggK (entropy : ℚ) : ℚ :=
  entropy / spc.erg

def Sconvert_erggK_to_JgK (entropy : ℚ) : ℚ :=
  entropy * spc.erg

def Sconvert_MbarccgK_to_JgK (entropy : ℚ) : ℚ :=
  entropy * 10 ^ 5

def Sconvert_JgK_to_MbarccgK (entropy : ℚ) : ℚ :=
  entropy / 10 ^ 5

def Econvert_kJmol_to_meVatom (energy : ℚ) : ℚ :=
  1000 * energy / (spc.e * spc.N_A / 1000)

def Econvert_meVatom_to_kJmol (energy : ℚ) : ℚ :=
  energy * (spc.e * spc.N_A / 1000) / 1000

def Econvert_eVatom_to_ergg (energy atomic_mass : ℚ) : ℚ :=
  energy * (spc.e * spc.N_A / spc.erg) / atomic_mass

def Econvert_ergg_to_eVatom (energy atomic_mass : ℚ) : ℚ :=
  energy * atomic_mass / (spc.e * spc.N_A / spc.erg)

def Econvert_Jg_to_eVatom (energy atomic_mass : ℚ) : ℚ :=
  energy * atomic_mass / (spc.e * spc.N_A)

def Econvert_eVatom_to_Jg (energy atomic_mass : ℚ) : ℚ :=
  energy * spc.e * spc.N_A / atomic_mass

def Econvert_Ryatom_to_ergg (energy atomic_mass : ℚ) : ℚ :=
  energy * (217987 / 10 ^ 16) * spc.N_A / atomic_mass

def Econvert_ergg_to_Ryatom (energy atomic_mass : ℚ) : ℚ :=
  energy * atomic_mass / (217987 / 10 ^ 16 * spc.N_A)

def Econvert_Ryatom_to_eVatom (energy : ℚ) : ℚ :=
  energy * (136056 / 10 ^ 4)

def Econvert_eVatom_to_Ryatom (energy : ℚ) : ℚ :=
  energy / (136056 / 10 ^ 4)

/-- The names of the 24 conversion functions defined in `scripts.py`
(lines 34-128), in source order. -/
def conversionFunctionNames : List String :=
  ["Sconvert_JmolK_to_kBatom", "Sconvert_kBatom_to_JmolK",
   "Sconvert_erggK_to_kBatom", "Sconvert_kBatom_to_erggK",
   "Sconvert_JgK_to_kBatom", "Sconvert_kBatom_to_JgK",
   "Sconvert_MbarccgK_to_kBatom", "Sconvert_kBatom_to_MbarccgK",
   "Sconvert_JmolK_to_JgK", "Sconvert_JgK_to_JmolK",
   "Sconvert_JgK_to_erggK", "Sconvert_erggK_to_JgK",
   "Sconvert_MbarccgK_to_JgK", "Sconvert_JgK_to_MbarccgK",
   "Econvert_kJmol_to_meVatom", "Econvert_meVatom_to_kJmol",
   "Econvert_eVatom_to_ergg", "Econvert_ergg_to_eVatom",
   "Econvert_Jg_to_eVatom", "Econvert_eVatom_to_Jg",
   "Econvert_Ryatom_to_ergg", "Econvert_ergg_to_Ryatom",
   "Econvert_Ryatom_to_eVatom", "Econvert_eVatom_to_Ryatom"]

end scripts

/-! ## The Conversion Engine of `NIST_Conversion.py` (lines 32-126)

The second, near-identical copy of the engine, transcribed independently
from its own source text. -/

namespace NISTConversion

def Sconvert_JmolK_to_kBatom (entropy : ℚ) : ℚ :=
  entropy / (spc.k * spc.N_A)

def Sconvert_kBatom_to_JmolK (entropy : ℚ) : ℚ :=
  entropy * (spc.k * spc.N_A)

def Sconvert_erggK_to_kBatom (entropy atomic_mass : ℚ) : ℚ :=
  entropy * atomic_mass / (spc.k / spc.erg * spc.N_A)

def Sconvert_kBatom_to_erggK (entropy atomic_mass : ℚ) : ℚ :=
  entropy * spc.k / spc.erg * spc.N_A / atomic_mass

def Sconvert_JgK_to_kBatom (entropy atomic_mass : ℚ) : ℚ :=
  entropy * atomic_mass / (spc.k * spc.N_A)

def Sconvert_kBatom_to_JgK (entropy atomic_mass : ℚ) : ℚ :=
  entropy * spc.k * spc.N_A / atomic_mass

def Sconvert_MbarccgK_to_kBatom (entropy atomic_mass : ℚ) : ℚ :=
  entropy * atomic_mass * 10 ^ 5 / (spc.k * spc.N_A)

def Sconvert_kBatom_to_MbarccgK (entropy atomic_mass : ℚ) : ℚ :=
  entropy * spc.k * spc.N_A / (atomic_mass * 10 ^ 5)

def Sconvert_JmolK_to_JgK (entropy atomic_mass : ℚ) : ℚ :=
  entropy / atomic_mass

def Sconvert_JgK_to_JmolK (entropy atomic_mass : ℚ) : ℚ :=
  entropy * atomic_mass

def Sconvert_JgK_to_erggK (entropy : ℚ) : ℚ :=
  entropy / spc.erg

def Sconvert_erggK_to_JgK (entropy : ℚ) : ℚ :=
  entropy * spc.erg

def Sconvert_MbarccgK_to_JgK (entropy : ℚ) : ℚ :=
  entropy * 10 ^ 5

def Sconvert_JgK_to_MbarccgK (entropy : ℚ) : ℚ :=
  entropy / 10 ^ 5

def Econvert_kJmol_to_meVatom (energy : ℚ) : ℚ :=
  1000 * energy / (spc.e * spc.N_A / 1000)

def Econvert_meVatom_to_kJmol (energy : ℚ) : ℚ :=
  energy * (spc.e * spc.N_A / 1000) / 1000

def Econvert_eVatom_to_ergg (energy atomic_mass : ℚ) : ℚ :=
  energy * (spc.e * spc.N_A / spc.erg) / atomic_mass

def Econvert_ergg_to_eVatom (energy atomic_mass : ℚ) : ℚ :=
  energy * atomic_mass / (spc.e * spc.N_A / spc.erg)

def Econvert_Jg_to_eVatom (energy atomic_mass : ℚ) : ℚ :=
  energy * atomic_mass / (spc.e * spc.N_A)

def Econvert_eVatom_to_Jg (energy atomic_mass : ℚ) : ℚ :=
  energy * spc.e * spc.N_A / atomic_mass

def Econvert_Ryatom_to_ergg (energy atomic_mass : ℚ) : ℚ :=
  energy * (217987 / 10 ^ 16) * spc.N_A / atomic_mass

def Econvert_ergg_to_Ryatom (energy atomic_mass : ℚ) : ℚ :=
  energy * atomic_mass / (217987 / 10 ^ 16 * spc.N_A)

def Econvert_Ryatom_to_eVatom (energy : ℚ) : ℚ :=
  energy * (136056 / 10 ^ 4)

def Econvert_eVatom_to_Ryatom (energy : ℚ) : ℚ :=
  energy / (136056 / 10 ^ 4)

/-- The names of the 24 conversion functions defined in `NIST_Conversion.py`
(lines 32-126), in source order. -/
def conversionFunctionNames : List String :=
  ["Sconvert_JmolK_to_kBatom", "Sconvert_kBatom_to_JmolK",
   "Sconvert_erggK_to_kBatom", "Sconvert_kBatom_to_erggK",
   "Sconvert_JgK_to_kBatom", "Sconvert_kBatom_to_JgK",
   "Sconvert_MbarccgK_to_kBatom", "Sconvert_kBatom_to_MbarccgK",
   "Sconvert_JmolK_to_JgK", "Sconvert_JgK_to_JmolK",
   "Sconvert_JgK_to_erggK", "Sconvert_erggK_to_JgK",
   "Sconvert_MbarccgK_to_JgK", "Sconvert_JgK_to_MbarccgK",
   "Econvert_kJmol_to_meVatom", "Econvert_meVatom_to_kJmol",
   "Econvert_eVatom_to_ergg", "Econvert_ergg_to_eVatom",
   "Econvert_Jg_to_eVatom", "Econvert_eVatom_to_Jg",
   "Econvert_Ryatom_to_ergg", "Econvert_ergg_to_Ryatom",
   "Econvert_Ryatom_to_eVatom", "Econvert_eVatom_to_Ryatom"]

end NISTConversion

/-! ## Tables and the lookup service

A written table file is modelled line by line.  `access_factor_from_table`
splits each line on tabs and drops empty fields, so a line is a list of
nonempty fields.  Header fields are strings (the final field of each written
line keeps its trailing `"\n"`, exactly as `line.split("\t")` leaves it);
numeric fields are kept as exact rationals (the `%.6f`/`%.6E` decimal
rendering of the source is presentation-only and is not modelled). -/

/-- One tab-separated field of a table line: a string field (headers, the
element-number column) or a numeric field (mass and factor columns). -/
inductive Cell where
  | str (s : String)
  | num (q : ℚ)
deriving DecidableEq

/-- A table line after `list(filter(None, line.split("\t")))`. -/
abbrev TableLine := List Cell

namespace scripts

/-- `create_conversion_table_entropy` (scripts.py lines 371-389): the written
`entropy_conversion_table.txt`, one `TableLine` per written line.  The data
row for element `i+1` stores, in order, `Sconvert_erggK_to_kBatom(1, m)`,
`Sconvert_JgK_to_kBatom(1, m)`, `Sconvert_MbarccgK_to_kBatom(1, m)` and
`Sconvert_JmolK_to_JgK(1, m)` — note this order against the header rows.
The source indexes `atomic_masses[i]` for `i < 118` and raises `IndexError`
on a shorter list; theorems about tables therefore assume a 118-entry mass
list, under which `List.getD` is the source's indexing. -/
def create_conversion_table_entropy (atomic_masses : List ℚ) : List TableLine :=
  [Cell.str "Starting Unit", Cell.str "erg/g/K", Cell.str "Mbar-cc/g/K",
   Cell.str "J/g/K", Cell.str "J/mol/K\n"] ::
  [Cell.str "Ending Unit", Cell.str "kB/atom", Cell.str "kB/atom",
   Cell.str "kB/atom", Cell.str "J/g/K\n"] ::
  [Cell.str "Element", Cell.str "AMass\n"] ::
  (List.range 118).map (fun i =>
    let m := atomic_masses.getD i 0
    [Cell.str (toString (i + 1)), Cell.num m,
     Cell.num (Sconvert_erggK_to_kBatom 1 m),
     Cell.num (Sconvert_JgK_to_kBatom 1 m),
     Cell.num (Sconvert_MbarccgK_to_kBatom 1 m),
     Cell.num (Sconvert_JmolK_to_JgK 1 m)])

/-- `create_conversion_table_entropy_reverse` (scripts.py lines 392-410). -/
def create_conversion_table_entropy_reverse (atomic_masses : List ℚ) : List TableLine :=
  [Cell.str "Starting Unit", Cell.str "kB/atom", Cell.str "kB/atom",
   Cell.str "kB/atom", Cell.str "J/g/K\n"] ::
  [Cell.str "Ending Unit", Cell.str "erg/g/K", Cell.str "Mbar-cc/g/K",
   Cell.str "J/g/K", Cell.str "J/mol/K\n"] ::
  [Cell.str "Element", Cell.str "AMass\n"] ::
  (List.range 118).map (fun i =>
    let m := atomic_masses.getD i 0
    [Cell.str (toString (i + 1)), Cell.num m,
     Cell.num (Sconvert_kBatom_to_erggK 1 m),
     Cell.num (Sconvert_kBatom_to_JgK 1 m),
     Cell.num (Sconvert_kBatom_to_MbarccgK 1 m),
     Cell.num (Sconvert_JgK_to_JmolK 1 m)])

/-- `create_conversion_table_energy` (scripts.py lines 413-431). -/
def create_conversion_table_energy (atomic_masses : List ℚ) : List TableLine :=
  [Cell.str "Starting Unit", Cell.str "erg/g", Cell.str "J/g",
   Cell.str "Ry/atom", Cell.str "Ry/atom\n"] ::
  [Cell.str "Ending Unit", Cell.str "eV/atom", Cell.str "eV/atom",
   Cell.str "eV/atom", Cell.str "erg/g\n"] ::
  [Cell.str "Element", Cell.str "AMass\n"] ::
  (List.range 118).map (fun i =>
    let m := atomic_masses.getD i 0
    [Cell.str (toString (i + 1)), Cell.num m,
     Cell.num (Econvert_ergg_to_eVatom 1 m),
     Cell.num (Econvert_Jg_to_eVatom 1 m),
     Cell.num (Econvert_Ryatom_to_eVatom 1),
     Cell.num (Econvert_Ryatom_to_ergg 1 m)])

/-- `create_conversion_table_energy_reverse` (scripts.py lines 434-452). -/
def create_conversion_table_energy_reverse (atomic_masses : List ℚ) : List TableLine :=
  [Cell.str "Starting Unit", Cell.str "eV/atom", Cell.str "eV/atom",
   Cell.str "eV/atom", Cell.str "erg/g\n"] ::
  [Cell.str "Ending Unit", Cell.str "erg/g", Cell.str "J/g",
   Cell.str "Ry/atom", Cell.str "Ry/atom\n"] ::
  [Cell.str "Element", Cell.str "AMass\n"] ::
  (List.range 118).map (fun i =>
    let m := atomic_masses.getD i 0
    [Cell.str (toString (i + 1)), Cell.num m,
     Cell.num (Econvert_eVatom_to_ergg 1 m),
     Cell.num (Econvert_eVatom_to_Jg 1 m),
     Cell.num (Econvert_eVatom_to_Ryatom 1),
     Cell.num (Econvert_ergg_to_Ryatom 1 m)])

end scripts

/-- The outcome of one `access_factor_from_table` call.  `factor c` is the
value of a normal `return line_data[index + 1]`; `noRow` is Python falling
off the end of the file and returning `None`; `unboundLocal` is the uncaught
`UnboundLocalError` raised when the element row is reached while `index` was
never assigned (no column jointly matched both units); `indexOutOfRange` is
the uncaught `IndexError` when `index + 1` exceeds the row width. -/
inductive AccessResult where
  | factor (c : Cell)
  | noRow
  | unboundLocal
  | indexOutOfRange
deriving DecidableEq

/-- The field indices (over the filtered fields, position 0 being the row
label) at which a header line carries exactly the string `u` — the inner
`for count, unit in enumerate(line_data)` loops of the source. -/
def headerMatches (line : TableLine) (u : String) : List Nat :=
  (line.enum.filter (fun p => p.2 = Cell.str u)).map (fun p => p.1)

/-- `common_member` (scripts.py lines 487-491): the intersection of the two
index lists.  The source materialises Python sets; the indices here are
small distinct naturals collected in increasing order, for which CPython set
iteration is also increasing, so `for i in unit_index: index = i` leaves
`index` equal to the maximum of the intersection. -/
def common_member (a b : List Nat) : List Nat :=
  a.filter (fun i => i ∈ b)

/-- The loop body state of `access_factor_from_table`: the accumulated
`starting_index` and `ending_index` lists and the last value assigned to
`index` (`none` while still unassigned). -/
def accessGo (element : Nat) (su eu : String) :
    List TableLine → List Nat → List Nat → Option Nat → AccessResult
  | [], _, _, _ => .noRow
  | line :: rest, sIdx, eIdx, idx =>
    let sIdx := if line.head? = some (Cell.str "Starting Unit")
      then sIdx ++ headerMatches line su else sIdx
    let eIdx := if line.head? = some (Cell.str "Ending Unit")
      then eIdx ++ headerMatches line eu else eIdx
    let idx := match (common_member sIdx eIdx).max? with
      | some i => some i
      | none => idx
    if line.head? = some (Cell.str (toString element)) then
      match idx with
      | none => .unboundLocal
      | some i =>
        match line.get? (i + 1) with
        | some c => .factor c
        | none => .indexOutOfRange
    else accessGo element su eu rest sIdx eIdx idx

namespace scripts

/-- `access_factor_from_table` (scripts.py lines 455-484) on an in-memory
table: scans the lines, collecting unit-header matches and their common
column index, and returns the field after the matched column at the row
whose first field is the element's atomic number. -/
def access_factor_from_table (table : List TableLine) (element : Nat)
    (starting_unit ending_unit : String) : AccessResult :=
  accessGo element starting_unit ending_unit table [] [] none

end scripts

namespace NISTConversion

/-- `line_data[len(line_data)-1].rstrip("\n")` of NIST_Conversion.py line
293: drop all trailing newline characters of a string. -/
def rstripNewline (s : String) : String :=
  String.mk ((s.data.reverse.dropWhile (fun c => c = '\n')).reverse)

/-- NIST_Conversion.py's parse additionally rewrites the last field of every
line with `rstrip("\n")` (only string fields carry the newline marker in
this model; numeric fields are exact rationals). -/
def rstripLastCell (line : TableLine) : TableLine :=
  line.modifyLast (fun c => match c with
    | Cell.str s => Cell.str (rstripNewline s)
    | Cell.num q => Cell.num q)

/-- `create_conversion_table_entropy` (NIST_Conversion.py lines 190-209),
identical line layout to the scripts.py copy. -/
def create_conversion_table_entropy (atomic_masses : List ℚ) : List TableLine :=
  [Cell.str "Starting Unit", Cell.str "erg/g/K", Cell.str "Mbar-cc/g/K",
   Cell.str "J/g/K", Cell.str "J/mol/K\n"] ::
  [Cell.str "Ending Unit", Cell.str "kB/atom", Cell.str "kB/atom",
   Cell.str "kB/atom", Cell.str "J/g/K\n"] ::
  [Cell.str "Element", Cell.str "AMass\n"] ::
  (List.range 118).map (fun i =>
    let m := atomic_masses.getD i 0
    [Cell.str (toString (i + 1)), Cell.num m,
     Cell.num (Sconvert_erggK_to_kBatom 1 m),
     Cell.num (Sconvert_JgK_to_kBatom 1 m),
     Cell.num (Sconvert_MbarccgK_to_kBatom 1 m),
     Cell.num (Sconvert_JmolK_to_JgK 1 m)])

/-- `access_factor_from_table` (NIST_Conversion.py lines 283-330).  Same
two-pass index search as the scripts.py copy, but each parsed line first has
its last field `rstrip`-ped.  At the matched element row this copy prints
`line_data[index + 1]` and prompts for another query instead of returning;
the modelled result is the printed factor field. -/
def access_factor_from_table (table : List TableLine) (element : Nat)
    (starting_unit ending_unit : String) : AccessResult :=
  accessGo element starting_unit ending_unit (table.map rstripLastCell) [] [] none

end NISTConversion

/-! ## The lookup dispatcher -/

/-- Which of the four generated table files a lookup consults. -/
inductive TableKind where
  | entropyForward
  | entropyReverse
  | energyForward
  | energyReverse
deriving DecidableEq

/-- The outcome of `get_factor_from_table`: either a table was consulted
(with the `AccessResult` of that consultation) or the trailing `else`
printed the invalid-input message and no table was consulted. -/
inductive DispatchResult where
  | looked (t : TableKind) (r : AccessResult)
  | invalidInput
deriving DecidableEq

/-- Python's `==` between a `list` and a `str` compares values of different
types and is always `False`.  This embeds the comparison
`choice_parameters == "Ry/atom"` of scripts.py line 518 (and
NIST_Conversion.py line 400), where `choice_parameters` is the list of the
three input tokens. -/
def pyListEqStr (_params : List String) (_s : String) : Bool :=
  false

namespace scripts

/-- `get_factor_from_table` (scripts.py lines 494-529) after input parsing:
the if/elif chain that picks a table from the starting (and sometimes
ending) unit and calls `access_factor_from_table` on it.  `masses` is the
atomic-mass list the four table files were generated from, `element` the
resolved atomic number, `su`/`eu` the two unit tokens. -/
def get_factor_from_table (masses : List ℚ) (element : Nat)
    (su eu : String) : DispatchResult :=
  let choice_parameters := [toString element, su, eu]
  if su = "erg/g/K" ∨ su = "Mbar-cc/g/K" ∨ su = "J/mol/K" then
    .looked .entropyForward
      (access_factor_from_table (create_conversion_table_entropy masses) element su eu)
  else if su = "J/g/K" then
    if eu = "kB/atom" then
      .looked .entropyForward
        (access_factor_from_table (create_conversion_table_entropy masses) element su eu)
    else
      .looked .entropyReverse
        (access_factor_from_table (create_conversion_table_entropy_reverse masses) element su eu)
  else if su = "kB/atom" then
    .looked .entropyReverse
      (access_factor_from_table (create_conversion_table_entropy_reverse masses) element su eu)
  else if su = "J/g" ∨ pyListEqStr choice_parameters "Ry/atom" = true then
    .looked .energyForward
      (access_factor_from_table (create_conversion_table_energy masses) element su eu)
  else if su = "erg/g" then
    if eu = "eV/atom" then
      .looked .energyForward
        (access_factor_from_table (create_conversion_table_energy masses) element su eu)
    else
      .looked .energyReverse
        (access_factor_from_table (create_conversion_table_energy_reverse masses) element su eu)
  else if su = "eV/atom" then
    .looked .energyReverse
      (access_factor_from_table (create_conversion_table_energy_reverse masses) element su eu)
  else
    .invalidInput

end scripts

/-! ## The Atomic Mass Registry (scripts.py lines 329-366) -/

namespace scripts

/-- The override pass of `update_atomic_mass` (scripts.py lines 335-344):
starting from the 118 default atomic weights, each override-file line
`(atomic_number, mass)` assigns `atomic_mass_list[atomic_number - 1] = mass`
in file order.  `List.set` coincides with the Python assignment whenever
`1 ≤ atomic_number ≤ 118` (out-of-range lines raise `IndexError` in the
source, so theorems assume in-range lines). -/
def update_atomic_mass (defaults : List ℚ) (overrides : List (Nat × ℚ)) : List ℚ :=
  overrides.foldl (fun acc p => acc.set (p.1 - 1) p.2) defaults

/-- The write pass of `update_atomic_mass` (scripts.py lines 346-352): the
persisted `atomic_masses_list.txt`, one `"{i+1}: {mass}"` line for each
`i < 118` (a shorter list raises `IndexError`; theorems assume 118). -/
def write_atomic_mass_file (l : List ℚ) : List (Nat × ℚ) :=
  (List.range 118).map (fun i => (i + 1, l.getD i 0))

/-- `create_atomic_mass_list` (scripts.py lines 355-366): reads the
persisted file back in order, taking the mass field of every line. -/
def create_atomic_mass_list (file : List (Nat × ℚ)) : List ℚ :=
  file.map (fun p => p.2)

end scripts

/-! ## The unit-pair reading of the engine

`convertByPair` associates each supported (starting unit, ending unit) pair
of strings — the unit names as they appear in the tables, the dispatcher and
the module docstring — with the scripts.py engine function of the same name.
It gives the "conversion for the unit pair named by the headers" that the
table invariants quantify over. -/

def convertByPair (su eu : String) (x m : ℚ) : Option ℚ :=
  match su, eu with
  | "J/mol/K", "kB/atom" => some (scripts.Sconvert_JmolK_to_kBatom x)
  | "kB/atom", "J/mol/K" => some (scripts.Sconvert_kBatom_to_JmolK x)
  | "erg/g/K", "kB/atom" => some (scripts.Sconvert_erggK_to_kBatom x m)
  | "kB/atom", "erg/g/K" => some (scripts.Sconvert_kBatom_to_erggK x m)
  | "J/g/K", "kB/atom" => some (scripts.Sconvert_JgK_to_kBatom x m)
  | "kB/atom", "J/g/K" => some (scripts.Sconvert_kBatom_to_JgK x m)
  | "Mbar-cc/g/K", "kB/atom" => some (scripts.Sconvert_MbarccgK_to_kBatom x m)
  | "kB/atom", "Mbar-cc/g/K" => some (scripts.Sconvert_kBatom_to_MbarccgK x m)
  | "J/mol/K", "J/g/K" => some (scripts.Sconvert_JmolK_to_JgK x m)
  | "J/g/K", "J/mol/K" => some (scripts.Sconvert_JgK_to_JmolK x m)
  | "J/g/K", "erg/g/K" => some (scripts.Sconvert_JgK_to_erggK x)
  | "erg/g/K", "J/g/K" => some (scripts.Sconvert_erggK_to_JgK x)
  | "Mbar-cc/g/K", "J/g/K" => some (scripts.Sconvert_MbarccgK_to_JgK x)
  | "J/g/K", "Mbar-cc/g/K" => some (scripts.Sconvert_JgK_to_MbarccgK x)
  | "kJ/mol", "meV/atom" => some (scripts.Econvert_kJmol_to_meVatom x)
  | "meV/atom", "kJ/mol" => some (scripts.Econvert_meVatom_to_kJmol x)
  | "eV/atom", "erg/g" => some (scripts.Econvert_eVatom_to_ergg x m)
  | "erg/g", "eV/atom" => some (scripts.Econvert_ergg_to_eVatom x m)
  | "J/g", "eV/atom" => some (scripts.Econvert_Jg_to_eVatom x m)
  | "eV/atom", "J/g" => some (scripts.Econvert_eVatom_to_Jg x m)
  | "Ry/atom", "erg/g" => some (scripts.Econvert_Ryatom_to_ergg x m)
  | "erg/g", "Ry/atom" => some (scripts.Econvert_ergg_to_Ryatom x m)
  | "Ry/atom", "eV/atom" => some (scripts.Econvert_Ryatom_to_eVatom x)
  | "eV/atom", "Ry/atom" => some (scripts.Econvert_eVatom_to_Ryatom x)
  | _, _ => none

/-- The nine unit names the lookup service knows (the `units` list of
NIST_Conversion.py line 353, which also enumerates every unit string
occurring in the four tables and the dispatcher). -/
def lookupUnits : List String :=
  ["erg/g/K", "Mbar-cc/g/K", "J/g/K", "J/mol/K", "kB/atom",
   "erg/g", "J/g", "Ry/atom", "eV/atom"]

/-- The sixteen (starting unit, ending unit) pairs that label some column of
one of the four generated tables (read jointly from the two header rows of
each table). -/
def tabulatedPairs : List (String × String) :=
  [("erg/g/K", "kB/atom"), ("Mbar-cc/g/K", "kB/atom"),
   ("J/g/K", "kB/atom"), ("J/mol/K", "J/g/K"),
   ("kB/atom", "erg/g/K"), ("kB/atom", "Mbar-cc/g/K"),
   ("kB/atom", "J/g/K"), ("J/g/K", "J/mol/K"),
   ("erg/g", "eV/atom"), ("J/g", "eV/atom"),
   ("Ry/atom", "eV/atom"), ("Ry/atom", "erg/g"),
   ("eV/atom", "erg/g"), ("eV/atom", "J/g"),
   ("eV/atom", "Ry/atom"), ("erg/g", "Ry/atom")]

/-! ## Lemmas about the Atomic Mass Registry -/

lemma update_atomic_mass_cons (d : List ℚ) (p : Nat × ℚ) (rest : List (Nat × ℚ)) :
    scripts.update_atomic_mass d (p :: rest)
      = scripts.update_atomic_mass (d.set (p.1 - 1) p.2) rest := rfl

lemma update_atomic_mass_length (ls : List (Nat × ℚ)) (d : List ℚ) :
    (scripts.update_atomic_mass d ls).length = d.length := by
  induction ls generalizing d with
  | nil => rfl
  | cons p rest ih =>
    rw [update_atomic_mass_cons, ih, List.length_set]

lemma update_atomic_mass_mem {x : ℚ} (ls : List (Nat × ℚ)) (d : List ℚ)
    (hx : x ∈ scripts.update_atomic_mass d ls) :
    x ∈ d ∨ x ∈ ls.map Prod.snd := by
  induction ls generalizing d with
  | nil => exact Or.inl hx
  | cons p rest ih =>
    rw [update_atomic_mass_cons] at hx
    rcases ih _ hx with h | h
    · rcases List.mem_or_eq_of_mem_set h with h' | h'
      · exact Or.inl h'
      · exact Or.inr (by simp [h'])
    · exact Or.inr (by simp [List.mem_cons]; exact Or.inr (by simpa using h))

lemma update_atomic_mass_get_of_untouched (ls : List (Nat × ℚ)) (d : List ℚ)
    (n : Nat) (hn : 1 ≤ n)
    (hone : ∀ p ∈ ls, 1 ≤ p.1) (hmiss : ∀ p ∈ ls, p.1 ≠ n) :
    (scripts.update_atomic_mass d ls).get? (n - 1) = d.get? (n - 1) := by
  induction ls generalizing d with
  | nil => rfl
  | cons p rest ih =>
    rw [update_atomic_mass_cons,
      ih _ (fun q hq => hone q (List.mem_cons_of_mem _ hq))
        (fun q hq => hmiss q (List.mem_cons_of_mem _ hq))]
    have h1 : 1 ≤ p.1 := hone p (List.mem_cons_self _ _)
    have h2 : p.1 ≠ n := hmiss p (List.mem_cons_self _ _)
    exact List.get?_set_ne _ _ (by omega)

lemma update_atomic_mass_last_override (ls : List (Nat × ℚ)) (d : List ℚ)
    (n : Nat) (m : ℚ) (hn : 1 ≤ n) (hlt : n - 1 < d.length)
    (hone : ∀ p ∈ ls, 1 ≤ p.1)
    (hlast : (ls.filter (fun p => p.1 == n)).getLast? = some (n, m)) :
    (scripts.update_atomic_mass d ls).get? (n - 1) = some m := by
  induction ls using List.reverseRecOn generalizing d with
  | nil => simp at hlast
  | append_singleton init p ih =>
    rw [scripts.update_atomic_mass, List.foldl_append, List.foldl_cons, List.foldl_nil]
    rw [List.filter_append] at hlast
    by_cases hp : p.1 == n
    · have hfp : List.filter (fun p => p.1 == n) [p] = [p] := by simp [List.filter, hp]
      rw [hfp, List.getLast?_concat] at hlast
      have hpn : p = (n, m) := by injection hlast
      subst hpn
      have hlen : (List.foldl (fun acc p => acc.set (p.1 - 1) p.2) d init).length
          = d.length := update_atomic_mass_length init d
      exact List.get?_set_eq_of_lt _ (hlen ▸ hlt)
    · have hfp : List.filter (fun p => p.1 == n) [p] = [] := by simp [List.filter, hp]
      rw [hfp, List.append_nil] at hlast
      have hstep : ((scripts.update_atomic_mass d init).set (p.1 - 1) p.2).get? (n - 1)
          = (scripts.update_atomic_mass d init).get? (n - 1) := by
        have h1 : 1 ≤ p.1 := hone p (by simp)
        have h2 : p.1 ≠ n := by simpa using hp
        exact List.get?_set_ne _ _ (by omega)
      rw [show scripts.update_atomic_mass d init = List.foldl
            (fun acc p => acc.set (p.1 - 1) p.2) d init from rfl] at hstep
      rw [hstep]
      exact ih d hlt (fun q hq => hone q (List.mem_append_left _ hq)) hlast

lemma range_map_getD (l : List ℚ) :
    (List.range l.length).map (fun i => l.getD i 0) = l := by
  apply List.ext_getElem (by simp)
  intro i h1 h2
  simp [List.getD_eq_getElem?_getD, List.getElem?_eq_getElem h2]

lemma create_write_roundtrip (l : List ℚ) (hl : l.length = 118) :
    scripts.create_atomic_mass_list (scripts.write_atomic_mass_file l) = l := by
  unfold scripts.create_atomic_mass_list scripts.write_atomic_mass_file
  rw [List.map_map]
  have : ((fun p => p.2) ∘ fun i => ((i + 1 : Nat), l.getD i 0))
      = fun i => l.getD i 0 := rfl
  rw [this, ← hl, range_map_getD]

lemma write_atomic_mass_file_get? (l : List ℚ) (i : Nat) (hi : i < 118) :
    (scripts.write_atomic_mass_file l).get? i = some (i + 1, l.getD i 0) := by
  unfold scripts.write_atomic_mass_file
  simp [List.get?_eq_getElem?, hi]

/-- C7: for every override line `(n, m)` of the reference file with
`1 ≤ n ≤ 118`, after `update_atomic_mass` the persisted list entry at index
`n - 1` is `m` — the last override line for `n` wins — regardless of the
default value at that index: the written file's line `n - 1` is `(n, m)`
and `create_atomic_mass_list` reads back `m` at index `n - 1`. -/
theorem c7_override_precedence (defaults : List ℚ) (overrides : List (Nat × ℚ))
    (n : Nat) (m : ℚ)
    (hlen : defaults.length = 118) (hn1 : 1 ≤ n) (hn2 : n ≤ 118)
    (hone : ∀ p ∈ overrides, 1 ≤ p.1)
    (hlast : (overrides.filter (fun p => p.1 == n)).getLast? = some (n, m)) :
    (scripts.write_atomic_mass_file (scripts.update_atomic_mass defaults overrides)).get? (n - 1)
        = some (n, m) ∧
    (scripts.create_atomic_mass_list (scripts.write_atomic_mass_file
        (scripts.update_atomic_mass defaults overrides))).get? (n - 1) = some m := by
  have hupd : (scripts.update_atomic_mass defaults overrides).get? (n - 1) = some m :=
    update_atomic_mass_last_override overrides defaults n m hn1 (by omega) hone hlast
  have hul : (scripts.update_atomic_mass defaults overrides).length = 118 := by
    rw [update_atomic_mass_length]; exact hlen
  have hgetD : (scripts.update_atomic_mass defaults overrides).getD (n - 1) 0 = m := by
    rw [List.getD_eq_get?, hupd]; rfl
  have hsucc : n - 1 + 1 = n := by omega
  constructor
  · rw [write_atomic_mass_file_get? _ _ (by omega), hgetD, hsucc]
  · rw [create_write_roundtrip _ hul, hupd]

/-- Witness for C7 at a concrete input: defaults all 1, two override lines
for atomic number 6 of which the last carries 12.011; the persisted entry at
index 5 is 12.011. -/
theorem c7_override_precedence_witness :
    (scripts.create_atomic_mass_list (scripts.write_atomic_mass_file
        (scripts.update_atomic_mass (List.replicate 118 (1 : ℚ))
          [(6, 10), (6, 12011/1000)]))).get? 5 = some (12011/1000 : ℚ) :=
  (c7_override_precedence (List.replicate 118 (1 : ℚ)) [(6, 10), (6, 12011/1000)]
    6 (12011/1000) (by simp) (by omega) (by omega)
    (by intro p hp; simp at hp; rcases hp with rfl | rfl <;> norm_num)
    (by simp)).2

/-- C8: if `update_atomic_mass` succeeded (all override lines in range, the
persisted file is the one it wrote), `create_atomic_mass_list` returns
exactly the 118-entry overridden list in atomic-number order (index =
atomic number − 1, no reordering), and every value is positive whenever
every source mass (default or override) is positive. -/
theorem c8_load_list_invariants (defaults : List ℚ) (overrides : List (Nat × ℚ))
    (hlen : defaults.length = 118)
    (hrange : ∀ p ∈ overrides, 1 ≤ p.1 ∧ p.1 ≤ 118)
    (hdpos : ∀ x ∈ defaults, 0 < x) (hopos : ∀ p ∈ overrides, 0 < p.2) :
    scripts.create_atomic_mass_list (scripts.write_atomic_mass_file
        (scripts.update_atomic_mass defaults overrides))
      = scripts.update_atomic_mass defaults overrides ∧
    (scripts.create_atomic_mass_list (scripts.write_atomic_mass_file
        (scripts.update_atomic_mass defaults overrides))).length = 118 ∧
    ∀ x ∈ scripts.create_atomic_mass_list (scripts.write_atomic_mass_file
        (scripts.update_atomic_mass defaults overrides)), 0 < x := by
  have hul : (scripts.update_atomic_mass defaults overrides).length = 118 := by
    rw [update_atomic_mass_length]; exact hlen
  have hrt := create_write_roundtrip _ hul
  refine ⟨hrt, by rw [hrt, hul], ?_⟩
  intro x hx
  rw [hrt] at hx
  rcases update_atomic_mass_mem _ _ hx with h | h
  · exact hdpos x h
  · obtain ⟨p, hp, rfl⟩ := List.mem_map.mp h
    exact hopos p hp

/-- Witness for C8 at a concrete input. -/
theorem c8_load_list_invariants_witness :
    (scripts.create_atomic_mass_list (scripts.write_atomic_mass_file
        (scripts.update_atomic_mass (List.replicate 118 (1 : ℚ))
          [(6, 12011/1000)]))).length = 118 :=
  (c8_load_list_invariants (List.replicate 118 (1 : ℚ)) [(6, 12011/1000)]
    (by simp) (by intro p hp; simp at hp; rw [hp]; norm_num)
    (by intro x hx; rcases List.eq_of_mem_replicate hx with rfl; norm_num)
    (by intro p hp; simp at hp; rw [hp]; norm_num)).2.1

/-! ## Round-trip lemmas for the 12 supported bidirectional pairs -/

lemma rtA_JmolK_kBatom (x : ℚ) :
    scripts.Sconvert_kBatom_to_JmolK (scripts.Sconvert_JmolK_to_kBatom x) = x := by
  unfold scripts.Sconvert_kBatom_to_JmolK scripts.Sconvert_JmolK_to_kBatom spc.k spc.N_A
  field_simp

lemma rtB_JmolK_kBatom (x : ℚ) :
    scripts.Sconvert_JmolK_to_kBatom (scripts.Sconvert_kBatom_to_JmolK x) = x := by
  unfold scripts.Sconvert_kBatom_to_JmolK scripts.Sconvert_JmolK_to_kBatom spc.k spc.N_A
  field_simp

lemma rtA_erggK_kBatom (x m : ℚ) (hm : m ≠ 0) :
    scripts.Sconvert_kBatom_to_erggK (scripts.Sconvert_erggK_to_kBatom x m) m = x := by
  unfold scripts.Sconvert_kBatom_to_erggK scripts.Sconvert_erggK_to_kBatom
    spc.k spc.N_A spc.erg
  field_simp
  ring

lemma rtB_erggK_kBatom (x m : ℚ) (hm : m ≠ 0) :
    scripts.Sconvert_erggK_to_kBatom (scripts.Sconvert_kBatom_to_erggK x m) m = x := by
  unfold scripts.Sconvert_kBatom_to_erggK scripts.Sconvert_erggK_to_kBatom
    spc.k spc.N_A spc.erg
  field_simp
  ring

lemma rtA_JgK_kBatom (x m : ℚ) (hm : m ≠ 0) :
    scripts.Sconvert_kBatom_to_JgK (scripts.Sconvert_JgK_to_kBatom x m) m = x := by
  unfold scripts.Sconvert_kBatom_to_JgK scripts.Sconvert_JgK_to_kBatom spc.k spc.N_A
  field_simp
  ring

lemma rtB_JgK_kBatom (x m : ℚ) (hm : m ≠ 0) :
    scripts.Sconvert_JgK_to_kBatom (scripts.Sconvert_kBatom_to_JgK x m) m = x := by
  unfold scripts.Sconvert_kBatom_to_JgK scripts.Sconvert_JgK_to_kBatom spc.k spc.N_A
  field_simp
  ring

lemma rtA_MbarccgK_kBatom (x m : ℚ) (hm : m ≠ 0) :
    scripts.Sconvert_kBatom_to_MbarccgK (scripts.Sconvert_MbarccgK_to_kBatom x m) m = x := by
  unfold scripts.Sconvert_kBatom_to_MbarccgK scripts.Sconvert_MbarccgK_to_kBatom
    spc.k spc.N_A
  field_simp
  ring

lemma rtB_MbarccgK_kBatom (x m : ℚ) (hm : m ≠ 0) :
    scripts.Sconvert_MbarccgK_to_kBatom (scripts.Sconvert_kBatom_to_MbarccgK x m) m = x := by
  unfold scripts.Sconvert_kBatom_to_MbarccgK scripts.Sconvert_MbarccgK_to_kBatom
    spc.k spc.N_A
  field_simp
  ring

lemma rtA_JmolK_JgK (x m : ℚ) (hm : m ≠ 0) :
    scripts.Sconvert_JgK_to_JmolK (scripts.Sconvert_JmolK_to_JgK x m) m = x := by
  unfold scripts.Sconvert_JgK_to_JmolK scripts.Sconvert_JmolK_to_JgK
  field_simp

lemma rtB_JmolK_JgK (x m : ℚ) (hm : m ≠ 0) :
    scripts.Sconvert_JmolK_to_JgK (scripts.Sconvert_JgK_to_JmolK x m) m = x := by
  unfold scripts.Sconvert_JgK_to_JmolK scripts.Sconvert_JmolK_to_JgK
  field_simp

lemma rtA_JgK_erggK (x : ℚ) :
    scripts.Sconvert_erggK_to_JgK (scripts.Sconvert_JgK_to_erggK x) = x := by
  unfold scripts.Sconvert_erggK_to_JgK scripts.Sconvert_JgK_to_erggK spc.erg
  field_simp

lemma rtB_JgK_erggK (x : ℚ) :
    scripts.Sconvert_JgK_to_erggK (scripts.Sconvert_erggK_to_JgK x) = x := by
  unfold scripts.Sconvert_erggK_to_JgK scripts.Sconvert_JgK_to_erggK spc.erg
  field_simp

lemma rtA_MbarccgK_JgK (x : ℚ) :
    scripts.Sconvert_JgK_to_MbarccgK (scripts.Sconvert_MbarccgK_to_JgK x) = x := by
  unfold scripts.Sconvert_JgK_to_MbarccgK scripts.Sconvert_MbarccgK_to_JgK
  field_simp

lemma rtB_MbarccgK_JgK (x : ℚ) :
    scripts.Sconvert_MbarccgK_to_JgK (scripts.Sconvert_JgK_to_MbarccgK x) = x := by
  unfold scripts.Sconvert_JgK_to_MbarccgK scripts.Sconvert_MbarccgK_to_JgK
  field_simp

lemma rtA_kJmol_meVatom (x : ℚ) :
    scripts.Econvert_meVatom_to_kJmol (scripts.Econvert_kJmol_to_meVatom x) = x := by
  unfold scripts.Econvert_meVatom_to_kJmol scripts.Econvert_kJmol_to_meVatom
    spc.e spc.N_A
  field_simp


lemma rtB_kJmol_meVatom (x : ℚ) :
    scripts.Econvert_kJmol_to_meVatom (scripts.Econvert_meVatom_to_kJmol x) = x := by
  unfold scripts.Econvert_meVatom_to_kJmol scripts.Econvert_kJmol_to_meVatom
    spc.e spc.N_A
  field_simp
  ring

lemma rtA_eVatom_ergg (x m : ℚ) (hm : m ≠ 0) :
    scripts.Econvert_ergg_to_eVatom (scripts.Econvert_eVatom_to_ergg x m) m = x := by
  unfold scripts.Econvert_ergg_to_eVatom scripts.Econvert_eVatom_to_ergg
    spc.e spc.N_A spc.erg
  field_simp
  ring

lemma rtB_eVatom_ergg (x m : ℚ) (hm : m ≠ 0) :
    scripts.Econvert_eVatom_to_ergg (scripts.Econvert_ergg_to_eVatom x m) m = x := by
  unfold scripts.Econvert_ergg_to_eVatom scripts.Econvert_eVatom_to_ergg
    spc.e spc.N_A spc.erg
  field_simp


lemma rtA_Jg_eVatom (x m : ℚ) (hm : m ≠ 0) :
    scripts.Econvert_eVatom_to_Jg (scripts.Econvert_Jg_to_eVatom x m) m = x := by
  unfold scripts.Econvert_eVatom_to_Jg scripts.Econvert_Jg_to_eVatom spc.e spc.N_A
  field_simp
  ring

lemma rtB_Jg_eVatom (x m : ℚ) (hm : m ≠ 0) :
    scripts.Econvert_Jg_to_eVatom (scripts.Econvert_eVatom_to_Jg x m) m = x := by
  unfold scripts.Econvert_eVatom_to_Jg scripts.Econvert_Jg_to_eVatom spc.e spc.N_A
  field_simp
  ring

lemma rtA_Ryatom_ergg (x m : ℚ) (hm : m ≠ 0) :
    scripts.Econvert_ergg_to_Ryatom (scripts.Econvert_Ryatom_to_ergg x m) m = x := by
  unfold scripts.Econvert_ergg_to_Ryatom scripts.Econvert_Ryatom_to_ergg spc.N_A
  field_simp
  ring

lemma rtB_Ryatom_ergg (x m : ℚ) (hm : m ≠ 0) :
    scripts.Econvert_Ryatom_to_ergg (scripts.Econvert_ergg_to_Ryatom x m) m = x := by
  unfold scripts.Econvert_ergg_to_Ryatom scripts.Econvert_Ryatom_to_ergg spc.N_A
  field_simp
  ring

lemma rtA_Ryatom_eVatom (x : ℚ) :
    scripts.Econvert_eVatom_to_Ryatom (scripts.Econvert_Ryatom_to_eVatom x) = x := by
  unfold scripts.Econvert_eVatom_to_Ryatom scripts.Econvert_Ryatom_to_eVatom
  field_simp

lemma rtB_Ryatom_eVatom (x : ℚ) :
    scripts.Econvert_Ryatom_to_eVatom (scripts.Econvert_eVatom_to_Ryatom x) = x := by
  unfold scripts.Econvert_eVatom_to_Ryatom scripts.Econvert_Ryatom_to_eVatom
  field_simp

lemma rt_abs_bound {a x : ℚ} (h : a = x) (hx : 0 < x) :
    |a - x| ≤ x * (1 / 10 ^ 9) := by
  rw [h, sub_self, abs_zero]
  positivity

/-- C1: for every supported unit pair with both conversion directions
defined (the 12 bidirectional pairs of the module docstring), every positive
value `x`, and every positive atomic mass `m` for the mass-dependent pairs,
`reverse(forward(x, m), m) = x` holds exactly over the rationals (in both
composition orders), and hence the round-trip lands within relative
tolerance `1e-9` of `x` — the double-precision clause read through this
exact rational semantics, where the relative error is 0. -/
theorem c1_roundtrip_inverse (x m : ℚ) (hx : 0 < x) (hm : 0 < m) :
    (scripts.Sconvert_kBatom_to_JmolK (scripts.Sconvert_JmolK_to_kBatom x) = x ∧
     scripts.Sconvert_JmolK_to_kBatom (scripts.Sconvert_kBatom_to_JmolK x) = x ∧
     |scripts.Sconvert_kBatom_to_JmolK (scripts.Sconvert_JmolK_to_kBatom x) - x|
        ≤ x * (1 / 10 ^ 9)) ∧
    (scripts.Sconvert_kBatom_to_erggK (scripts.Sconvert_erggK_to_kBatom x m) m = x ∧
     scripts.Sconvert_erggK_to_kBatom (scripts.Sconvert_kBatom_to_erggK x m) m = x ∧
     |scripts.Sconvert_kBatom_to_erggK (scripts.Sconvert_erggK_to_kBatom x m) m - x|
        ≤ x * (1 / 10 ^ 9)) ∧
    (scripts.Sconvert_kBatom_to_JgK (scripts.Sconvert_JgK_to_kBatom x m) m = x ∧
     scripts.Sconvert_JgK_to_kBatom (scripts.Sconvert_kBatom_to_JgK x m) m = x ∧
     |scripts.Sconvert_kBatom_to_JgK (scripts.Sconvert_JgK_to_kBatom x m) m - x|
        ≤ x * (1 / 10 ^ 9)) ∧
    (scripts.Sconvert_kBatom_to_MbarccgK (scripts.Sconvert_MbarccgK_to_kBatom x m) m = x ∧
     scripts.Sconvert_MbarccgK_to_kBatom (scripts.Sconvert_kBatom_to_MbarccgK x m) m = x ∧
     |scripts.Sconvert_kBatom_to_MbarccgK (scripts.Sconvert_MbarccgK_to_kBatom x m) m - x|
        ≤ x * (1 / 10 ^ 9)) ∧
    (scripts.Sconvert_JgK_to_JmolK (scripts.Sconvert_JmolK_to_JgK x m) m = x ∧
     scripts.Sconvert_JmolK_to_JgK (scripts.Sconvert_JgK_to_JmolK x m) m = x ∧
     |scripts.Sconvert_JgK_to_JmolK (scripts.Sconvert_JmolK_to_JgK x m) m - x|
        ≤ x * (1 / 10 ^ 9)) ∧
    (scripts.Sconvert_erggK_to_JgK (scripts.Sconvert_JgK_to_erggK x) = x ∧
     scripts.Sconvert_JgK_to_erggK (scripts.Sconvert_erggK_to_JgK x) = x ∧
     |scripts.Sconvert_erggK_to_JgK (scripts.Sconvert_JgK_to_erggK x) - x|
        ≤ x * (1 / 10 ^ 9)) ∧
    (scripts.Sconvert_JgK_to_MbarccgK (scripts.Sconvert_MbarccgK_to_JgK x) = x ∧
     scripts.Sconvert_MbarccgK_to_JgK (scripts.Sconvert_JgK_to_MbarccgK x) = x ∧
     |scripts.Sconvert_JgK_to_MbarccgK (scripts.Sconvert_MbarccgK_to_JgK x) - x|
        ≤ x * (1 / 10 ^ 9)) ∧
    (scripts.Econvert_meVatom_to_kJmol (scripts.Econvert_kJmol_to_meVatom x) = x ∧
     scripts.Econvert_kJmol_to_meVatom (scripts.Econvert_meVatom_to_kJmol x) = x ∧
     |scripts.Econvert_meVatom_to_kJmol (scripts.Econvert_kJmol_to_meVatom x) - x|
        ≤ x * (1 / 10 ^ 9)) ∧
    (scripts.Econvert_ergg_to_eVatom (scripts.Econvert_eVatom_to_ergg x m) m = x ∧
     scripts.Econvert_eVatom_to_ergg (scripts.Econvert_ergg_to_eVatom x m) m = x ∧
     |scripts.Econvert_ergg_to_eVatom (scripts.Econvert_eVatom_to_ergg x m) m - x|
        ≤ x * (1 / 10 ^ 9)) ∧
    (scripts.Econvert_eVatom_to_Jg (scripts.Econvert_Jg_to_eVatom x m) m = x ∧
     scripts.Econvert_Jg_to_eVatom (scripts.Econvert_eVatom_to_Jg x m) m = x ∧
     |scripts.Econvert_eVatom_to_Jg (scripts.Econvert_Jg_to_eVatom x m) m - x|
        ≤ x * (1 / 10 ^ 9)) ∧
    (scripts.Econvert_ergg_to_Ryatom (scripts.Econvert_Ryatom_to_ergg x m) m = x ∧
     scripts.Econvert_Ryatom_to_ergg (scripts.Econvert_ergg_to_Ryatom x m) m = x ∧
     |scripts.Econvert_ergg_to_Ryatom (scripts.Econvert_Ryatom_to_ergg x m) m - x|
        ≤ x * (1 / 10 ^ 9)) ∧
    (scripts.Econvert_eVatom_to_Ryatom (scripts.Econvert_Ryatom_to_eVatom x) = x ∧
     scripts.Econvert_Ryatom_to_eVatom (scripts.Econvert_eVatom_to_Ryatom x) = x ∧
     |scripts.Econvert_eVatom_to_Ryatom (scripts.Econvert_Ryatom_to_eVatom x) - x|
        ≤ x * (1 / 10 ^ 9)) := by
  have hm' : m ≠ 0 := ne_of_gt hm
  exact ⟨⟨rtA_JmolK_kBatom x, rtB_JmolK_kBatom x,
      rt_abs_bound (rtA_JmolK_kBatom x) hx⟩,
    ⟨rtA_erggK_kBatom x m hm', rtB_erggK_kBatom x m hm',
      rt_abs_bound (rtA_erggK_kBatom x m hm') hx⟩,
    ⟨rtA_JgK_kBatom x m hm', rtB_JgK_kBatom x m hm',
      rt_abs_bound (rtA_JgK_kBatom x m hm') hx⟩,
    ⟨rtA_MbarccgK_kBatom x m hm', rtB_MbarccgK_kBatom x m hm',
      rt_abs_bound (rtA_MbarccgK_kBatom x m hm') hx⟩,
    ⟨rtA_JmolK_JgK x m hm', rtB_JmolK_JgK x m hm',
      rt_abs_bound (rtA_JmolK_JgK x m hm') hx⟩,
    ⟨rtA_JgK_erggK x, rtB_JgK_erggK x,
      rt_abs_bound (rtA_JgK_erggK x) hx⟩,
    ⟨rtA_MbarccgK_JgK x, rtB_MbarccgK_JgK x,
      rt_abs_bound (rtA_MbarccgK_JgK x) hx⟩,
    ⟨rtA_kJmol_meVatom x, rtB_kJmol_meVatom x,
      rt_abs_bound (rtA_kJmol_meVatom x) hx⟩,
    ⟨rtA_eVatom_ergg x m hm', rtB_eVatom_ergg x m hm',
      rt_abs_bound (rtA_eVatom_ergg x m hm') hx⟩,
    ⟨rtA_Jg_eVatom x m hm', rtB_Jg_eVatom x m hm',
      rt_abs_bound (rtA_Jg_eVatom x m hm') hx⟩,
    ⟨rtA_Ryatom_ergg x m hm', rtB_Ryatom_ergg x m hm',
      rt_abs_bound (rtA_Ryatom_ergg x m hm') hx⟩,
    ⟨rtA_Ryatom_eVatom x, rtB_Ryatom_eVatom x,
      rt_abs_bound (rtA_Ryatom_eVatom x) hx⟩⟩

/-- Witness for C1 at `x = 2`, `m = 3`. -/
theorem c1_roundtrip_inverse_witness :
    scripts.Sconvert_kBatom_to_JmolK (scripts.Sconvert_JmolK_to_kBatom 2) = 2 :=
  (c1_roundtrip_inverse 2 3 (by norm_num) (by norm_num)).1.1

/-- C3: each Conversion Engine function computes exactly the closed-form
formula of the specification's formula table (all 12 rows, including the
five examples the claim lists explicitly), and each reverse function is the
exact algebraic inverse: composing either way returns the input whenever the
atomic mass is nonzero (the mass-independent pairs unconditionally). -/
theorem c3_formula_contracts (x m : ℚ) :
    scripts.Sconvert_JmolK_to_kBatom x = x / (spc.k * spc.N_A) ∧
    scripts.Sconvert_erggK_to_kBatom x m = x * m / (spc.k / spc.erg * spc.N_A) ∧
    scripts.Sconvert_JgK_to_kBatom x m = x * m / (spc.k * spc.N_A) ∧
    scripts.Sconvert_MbarccgK_to_kBatom x m = x * m * 10 ^ 5 / (spc.k * spc.N_A) ∧
    scripts.Sconvert_JmolK_to_JgK x m = x / m ∧
    scripts.Sconvert_JgK_to_erggK x = x / spc.erg ∧
    scripts.Sconvert_MbarccgK_to_JgK x = x * 10 ^ 5 ∧
    scripts.Econvert_kJmol_to_meVatom x = 1000 * x / (spc.e * spc.N_A / 1000) ∧
    scripts.Econvert_eVatom_to_ergg x m = x * (spc.e * spc.N_A / spc.erg) / m ∧
    scripts.Econvert_Jg_to_eVatom x m = x * m / (spc.e * spc.N_A) ∧
    scripts.Econvert_Ryatom_to_ergg x m = x * (217987 / 10 ^ 16) * spc.N_A / m ∧
    scripts.Econvert_Ryatom_to_eVatom x = x * (136056 / 10 ^ 4) ∧
    (m ≠ 0 →
      (scripts.Sconvert_kBatom_to_JmolK (scripts.Sconvert_JmolK_to_kBatom x) = x ∧
        scripts.Sconvert_JmolK_to_kBatom (scripts.Sconvert_kBatom_to_JmolK x) = x) ∧
      (scripts.Sconvert_kBatom_to_erggK (scripts.Sconvert_erggK_to_kBatom x m) m = x ∧
        scripts.Sconvert_erggK_to_kBatom (scripts.Sconvert_kBatom_to_erggK x m) m = x) ∧
      (scripts.Sconvert_kBatom_to_JgK (scripts.Sconvert_JgK_to_kBatom x m) m = x ∧
        scripts.Sconvert_JgK_to_kBatom (scripts.Sconvert_kBatom_to_JgK x m) m = x) ∧
      (scripts.Sconvert_kBatom_to_MbarccgK (scripts.Sconvert_MbarccgK_to_kBatom x m) m = x ∧
        scripts.Sconvert_MbarccgK_to_kBatom (scripts.Sconvert_kBatom_to_MbarccgK x m) m = x) ∧
      (scripts.Sconvert_JgK_to_JmolK (scripts.Sconvert_JmolK_to_JgK x m) m = x ∧
        scripts.Sconvert_JmolK_to_JgK (scripts.Sconvert_JgK_to_JmolK x m) m = x) ∧
      (scripts.Sconvert_erggK_to_JgK (scripts.Sconvert_JgK_to_erggK x) = x ∧
        scripts.Sconvert_JgK_to_erggK (scripts.Sconvert_erggK_to_JgK x) = x) ∧
      (scripts.Sconvert_JgK_to_MbarccgK (scripts.Sconvert_MbarccgK_to_JgK x) = x ∧
        scripts.Sconvert_MbarccgK_to_JgK (scripts.Sconvert_JgK_to_MbarccgK x) = x) ∧
      (scripts.Econvert_meVatom_to_kJmol (scripts.Econvert_kJmol_to_meVatom x) = x ∧
        scripts.Econvert_kJmol_to_meVatom (scripts.Econvert_meVatom_to_kJmol x) = x) ∧
      (scripts.Econvert_ergg_to_eVatom (scripts.Econvert_eVatom_to_ergg x m) m = x ∧
        scripts.Econvert_eVatom_to_ergg (scripts.Econvert_ergg_to_eVatom x m) m = x) ∧
      (scripts.Econvert_eVatom_to_Jg (scripts.Econvert_Jg_to_eVatom x m) m = x ∧
        scripts.Econvert_Jg_to_eVatom (scripts.Econvert_eVatom_to_Jg x m) m = x) ∧
      (scripts.Econvert_ergg_to_Ryatom (scripts.Econvert_Ryatom_to_ergg x m) m = x ∧
        scripts.Econvert_Ryatom_to_ergg (scripts.Econvert_ergg_to_Ryatom x m) m = x) ∧
      (scripts.Econvert_eVatom_to_Ryatom (scripts.Econvert_Ryatom_to_eVatom x) = x ∧
        scripts.Econvert_Ryatom_to_eVatom (scripts.Econvert_eVatom_to_Ryatom x) = x)) :=
  ⟨rfl, rfl, rfl, rfl, rfl, rfl, rfl, rfl, rfl, rfl, rfl, rfl, fun hm =>
    ⟨⟨rtA_JmolK_kBatom x, rtB_JmolK_kBatom x⟩,
     ⟨rtA_erggK_kBatom x m hm, rtB_erggK_kBatom x m hm⟩,
     ⟨rtA_JgK_kBatom x m hm, rtB_JgK_kBatom x m hm⟩,
     ⟨rtA_MbarccgK_kBatom x m hm, rtB_MbarccgK_kBatom x m hm⟩,
     ⟨rtA_JmolK_JgK x m hm, rtB_JmolK_JgK x m hm⟩,
     ⟨rtA_JgK_erggK x, rtB_JgK_erggK x⟩,
     ⟨rtA_MbarccgK_JgK x, rtB_MbarccgK_JgK x⟩,
     ⟨rtA_kJmol_meVatom x, rtB_kJmol_meVatom x⟩,
     ⟨rtA_eVatom_ergg x m hm, rtB_eVatom_ergg x m hm⟩,
     ⟨rtA_Jg_eVatom x m hm, rtB_Jg_eVatom x m hm⟩,
     ⟨rtA_Ryatom_ergg x m hm, rtB_Ryatom_ergg x m hm⟩,
     ⟨rtA_Ryatom_eVatom x, rtB_Ryatom_eVatom x⟩⟩⟩

/-- Witness for C3 at `x = 2`, `m = 3`: the mass hypothesis of the inverse
clause discharged at `3 ≠ 0`. -/
theorem c3_formula_contracts_witness :
    scripts.Sconvert_JmolK_to_kBatom (scripts.Sconvert_kBatom_to_JmolK 2) = 2 :=
  (((c3_formula_contracts 2
    3).2.2.2.2.2.2.2.2.2.2.2.2 (by norm_num)).1).2

/-- C9: every conversion function is homogeneous (linear) in its value
argument: `f(x, m) = x * f(1, m)` exactly over the rationals, for every
value `x` and positive mass `m` (the mass-independent functions satisfy
`f(x) = x * f(1)`), so the factor tabulated at value 1 is the correct
multiplier for any quantity in the starting unit. -/
theorem c9_linear_in_value (x m : ℚ) (hm : 0 < m) :
    scripts.Sconvert_JmolK_to_kBatom x = x * scripts.Sconvert_JmolK_to_kBatom 1 ∧
    scripts.Sconvert_kBatom_to_JmolK x = x * scripts.Sconvert_kBatom_to_JmolK 1 ∧
    scripts.Sconvert_erggK_to_kBatom x m = x * scripts.Sconvert_erggK_to_kBatom 1 m ∧
    scripts.Sconvert_kBatom_to_erggK x m = x * scripts.Sconvert_kBatom_to_erggK 1 m ∧
    scripts.Sconvert_JgK_to_kBatom x m = x * scripts.Sconvert_JgK_to_kBatom 1 m ∧
    scripts.Sconvert_kBatom_to_JgK x m = x * scripts.Sconvert_kBatom_to_JgK 1 m ∧
    scripts.Sconvert_MbarccgK_to_kBatom x m = x * scripts.Sconvert_MbarccgK_to_kBatom 1 m ∧
    scripts.Sconvert_kBatom_to_MbarccgK x m = x * scripts.Sconvert_kBatom_to_MbarccgK 1 m ∧
    scripts.Sconvert_JmolK_to_JgK x m = x * scripts.Sconvert_JmolK_to_JgK 1 m ∧
    scripts.Sconvert_JgK_to_JmolK x m = x * scripts.Sconvert_JgK_to_JmolK 1 m ∧
    scripts.Sconvert_JgK_to_erggK x = x * scripts.Sconvert_JgK_to_erggK 1 ∧
    scripts.Sconvert_erggK_to_JgK x = x * scripts.Sconvert_erggK_to_JgK 1 ∧
    scripts.Sconvert_MbarccgK_to_JgK x = x * scripts.Sconvert_MbarccgK_to_JgK 1 ∧
    scripts.Sconvert_JgK_to_MbarccgK x = x * scripts.Sconvert_JgK_to_MbarccgK 1 ∧
    scripts.Econvert_kJmol_to_meVatom x = x * scripts.Econvert_kJmol_to_meVatom 1 ∧
    scripts.Econvert_meVatom_to_kJmol x = x * scripts.Econvert_meVatom_to_kJmol 1 ∧
    scripts.Econvert_eVatom_to_ergg x m = x * scripts.Econvert_eVatom_to_ergg 1 m ∧
    scripts.Econvert_ergg_to_eVatom x m = x * scripts.Econvert_ergg_to_eVatom 1 m ∧
    scripts.Econvert_Jg_to_eVatom x m = x * scripts.Econvert_Jg_to_eVatom 1 m ∧
    scripts.Econvert_eVatom_to_Jg x m = x * scripts.Econvert_eVatom_to_Jg 1 m ∧
    scripts.Econvert_Ryatom_to_ergg x m = x * scripts.Econvert_Ryatom_to_ergg 1 m ∧
    scripts.Econvert_ergg_to_Ryatom x m = x * scripts.Econvert_ergg_to_Ryatom 1 m ∧
    scripts.Econvert_Ryatom_to_eVatom x = x * scripts.Econvert_Ryatom_to_eVatom 1 ∧
    scripts.Econvert_eVatom_to_Ryatom x = x * scripts.Econvert_eVatom_to_Ryatom 1 := by
  refine ⟨?_, ?_, ?_, ?_, ?_, ?_, ?_, ?_, ?_, ?_, ?_, ?_, ?_, ?_, ?_, ?_, ?_,
    ?_, ?_, ?_, ?_, ?_, ?_, ?_⟩ <;>
    · simp only [scripts.Sconvert_JmolK_to_kBatom, scripts.Sconvert_kBatom_to_JmolK,
        scripts.Sconvert_erggK_to_kBatom, scripts.Sconvert_kBatom_to_erggK,
        scripts.Sconvert_JgK_to_kBatom, scripts.Sconvert_kBatom_to_JgK,
        scripts.Sconvert_MbarccgK_to_kBatom, scripts.Sconvert_kBatom_to_MbarccgK,
        scripts.Sconvert_JmolK_to_JgK, scripts.Sconvert_JgK_to_JmolK,
        scripts.Sconvert_JgK_to_erggK, scripts.Sconvert_erggK_to_JgK,
        scripts.Sconvert_MbarccgK_to_JgK, scripts.Sconvert_JgK_to_MbarccgK,
        scripts.Econvert_kJmol_to_meVatom, scripts.Econvert_meVatom_to_kJmol,
        scripts.Econvert_eVatom_to_ergg, scripts.Econvert_ergg_to_eVatom,
        scripts.Econvert_Jg_to_eVatom, scripts.Econvert_eVatom_to_Jg,
        scripts.Econvert_Ryatom_to_ergg, scripts.Econvert_ergg_to_Ryatom,
        scripts.Econvert_Ryatom_to_eVatom, scripts.Econvert_eVatom_to_Ryatom]
      ring

/-- Witness for C9 at `x = 2`, `m = 3`. -/
theorem c9_linear_in_value_witness :
    scripts.Sconvert_erggK_to_kBatom 2 3 = 2 * scripts.Sconvert_erggK_to_kBatom 1 3 :=
  (c9_linear_in_value 2 3 (by norm_num)).2.2.1

/-- C10 counterexample: the two files each define 24 (not 26) same-named
conversion functions; the claim's count of 26 is wrong. -/
theorem c10_count_is_24_not_26 :
    scripts.conversionFunctionNames.length = 24 ∧
    NISTConversion.conversionFunctionNames.length = 24 ∧
    scripts.conversionFunctionNames = NISTConversion.conversionFunctionNames ∧
    scripts.conversionFunctionNames.length ≠ 26 :=
  ⟨rfl, rfl, rfl, by decide⟩

/-- C10 (amended): the two copies of the Conversion Engine are extensionally
equal: each of the 24 same-named conversion functions of `scripts.py` and
`NIST_Conversion.py` returns equal results on all inputs. -/
theorem c10_engines_extensionally_equal :
    (∀ x : ℚ, scripts.Sconvert_JmolK_to_kBatom x = NISTConversion.Sconvert_JmolK_to_kBatom x) ∧
    (∀ x : ℚ, scripts.Sconvert_kBatom_to_JmolK x = NISTConversion.Sconvert_kBatom_to_JmolK x) ∧
    (∀ x m : ℚ, scripts.Sconvert_erggK_to_kBatom x m = NISTConversion.Sconvert_erggK_to_kBatom x m) ∧
    (∀ x m : ℚ, scripts.Sconvert_kBatom_to_erggK x m = NISTConversion.Sconvert_kBatom_to_erggK x m) ∧
    (∀ x m : ℚ, scripts.Sconvert_JgK_to_kBatom x m = NISTConversion.Sconvert_JgK_to_kBatom x m) ∧
    (∀ x m : ℚ, scripts.Sconvert_kBatom_to_JgK x m = NISTConversion.Sconvert_kBatom_to_JgK x m) ∧
    (∀ x m : ℚ, scripts.Sconvert_MbarccgK_to_kBatom x m = NISTConversion.Sconvert_MbarccgK_to_kBatom x m) ∧
    (∀ x m : ℚ, scripts.Sconvert_kBatom_to_MbarccgK x m = NISTConversion.Sconvert_kBatom_to_MbarccgK x m) ∧
    (∀ x m : ℚ, scripts.Sconvert_JmolK_to_JgK x m = NISTConversion.Sconvert_JmolK_to_JgK x m) ∧
    (∀ x m : ℚ, scripts.Sconvert_JgK_to_JmolK x m = NISTConversion.Sconvert_JgK_to_JmolK x m) ∧
    (∀ x : ℚ, scripts.Sconvert_JgK_to_erggK x = NISTConversion.Sconvert_JgK_to_erggK x) ∧
    (∀ x : ℚ, scripts.Sconvert_erggK_to_JgK x = NISTConversion.Sconvert_erggK_to_JgK x) ∧
    (∀ x : ℚ, scripts.Sconvert_MbarccgK_to_JgK x = NISTConversion.Sconvert_MbarccgK_to_JgK x) ∧
    (∀ x : ℚ, scripts.Sconvert_JgK_to_MbarccgK x = NISTConversion.Sconvert_JgK_to_MbarccgK x) ∧
    (∀ x : ℚ, scripts.Econvert_kJmol_to_meVatom x = NISTConversion.Econvert_kJmol_to_meVatom x) ∧
    (∀ x : ℚ, scripts.Econvert_meVatom_to_kJmol x = NISTConversion.Econvert_meVatom_to_kJmol x) ∧
    (∀ x m : ℚ, scripts.Econvert_eVatom_to_ergg x m = NISTConversion.Econvert_eVatom_to_ergg x m) ∧
    (∀ x m : ℚ, scripts.Econvert_ergg_to_eVatom x m = NISTConversion.Econvert_ergg_to_eVatom x m) ∧
    (∀ x m : ℚ, scripts.Econvert_Jg_to_eVatom x m = NISTConversion.Econvert_Jg_to_eVatom x m) ∧
    (∀ x m : ℚ, scripts.Econvert_eVatom_to_Jg x m = NISTConversion.Econvert_eVatom_to_Jg x m) ∧
    (∀ x m : ℚ, scripts.Econvert_Ryatom_to_ergg x m = NISTConversion.Econvert_Ryatom_to_ergg x m) ∧
    (∀ x m : ℚ, scripts.Econvert_ergg_to_Ryatom x m = NISTConversion.Econvert_ergg_to_Ryatom x m) ∧
    (∀ x : ℚ, scripts.Econvert_Ryatom_to_eVatom x = NISTConversion.Econvert_Ryatom_to_eVatom x) ∧
    (∀ x : ℚ, scripts.Econvert_eVatom_to_Ryatom x = NISTConversion.Econvert_eVatom_to_Ryatom x) :=
  ⟨fun _ => rfl, fun _ => rfl, fun _ _ => rfl, fun _ _ => rfl, fun _ _ => rfl,
   fun _ _ => rfl, fun _ _ => rfl, fun _ _ => rfl, fun _ _ => rfl, fun _ _ => rfl,
   fun _ => rfl, fun _ => rfl, fun _ => rfl, fun _ => rfl, fun _ => rfl,
   fun _ => rfl, fun _ _ => rfl, fun _ _ => rfl, fun _ _ => rfl, fun _ _ => rfl,
   fun _ _ => rfl, fun _ _ => rfl, fun _ => rfl, fun _ => rfl⟩

/-! ## Table claims -/

/-- C2 (code bug): the entropy tables are mislabelled.  In
`create_conversion_table_entropy`, the column-2 headers name the pair
(Mbar-cc/g/K → kB/atom), but the stored factor of every data row's column 2
is `Sconvert_JgK_to_kBatom(1, m)` — the J/g/K factor — which differs from
the engine's value for the header pair, `Sconvert_MbarccgK_to_kBatom(1, m)`,
by a factor 10⁵ (columns 2 and 3 are swapped against the headers; the same
swap occurs in `create_conversion_table_entropy_reverse`).  Shown here at
mass 1.00798 (hydrogen): the header cells of column 2, the stored factor of
the first data row, the engine's value for the pair the headers name, and
their disagreement. -/
theorem c2_entropy_table_mislabelled :
    ((scripts.create_conversion_table_entropy
        (List.replicate 118 (100798/100000))).get? 0
      |>.bind (fun l => l.get? 2)) = some (Cell.str "Mbar-cc/g/K") ∧
    ((scripts.create_conversion_table_entropy
        (List.replicate 118 (100798/100000))).get? 1
      |>.bind (fun l => l.get? 2)) = some (Cell.str "kB/atom") ∧
    ((scripts.create_conversion_table_entropy
        (List.replicate 118 (100798/100000))).get? 3
      |>.bind (fun l => l.get? 3))
      = some (Cell.num (scripts.Sconvert_JgK_to_kBatom 1 (100798/100000))) ∧
    convertByPair "Mbar-cc/g/K" "kB/atom" 1 (100798/100000)
      = some (scripts.Sconvert_MbarccgK_to_kBatom 1 (100798/100000)) ∧
    scripts.Sconvert_JgK_to_kBatom 1 (100798/100000)
      ≠ scripts.Sconvert_MbarccgK_to_kBatom 1 (100798/100000) := by
  refine ⟨rfl, rfl, rfl, rfl, ?_⟩
  simp only [scripts.Sconvert_JgK_to_kBatom, scripts.Sconvert_MbarccgK_to_kBatom,
    spc.k, spc.N_A]
  norm_num

/-- C4 (code bug): a lookup whose starting unit is `"Ry/atom"` is never
dispatched to the energy_forward table: the source compares the whole
parameter list to the string (`choice_parameters == "Ry/atom"`, always
false in Python), so the dispatcher falls through to the invalid-input
branch and consults no table at all. -/
theorem c4_Ryatom_dispatch_defect :
    scripts.get_factor_from_table (List.replicate 118 1) 6 "Ry/atom" "eV/atom"
      = DispatchResult.invalidInput ∧
    (∀ r : AccessResult,
      DispatchResult.invalidInput ≠ DispatchResult.looked TableKind.energyForward r) :=
  ⟨rfl, fun _ h => DispatchResult.noConfusion h⟩

/-- C5 (code bug): with the entropy forward table built from a mass list
whose entry for atomic number 6 is 12.011, the lookup (element 6, J/mol/K →
J/g/K) does select the entropy forward table, but scripts.py's
`access_factor_from_table` never strips the trailing newline of a line's
last field, so the last header column — exactly the (J/mol/K, J/g/K) pair —
never matches either unit; the element row is then reached with the column
index still unassigned and the lookup dies with an uncaught
`UnboundLocalError` instead of returning the factor.  The
NIST_Conversion.py copy, which does `rstrip` the last field, locates the
factor `Sconvert_JmolK_to_JgK(1, 12.011) = 1/12.011 ≈ 0.08326`. -/
theorem c5_JmolK_JgK_lookup_crashes :
    scripts.get_factor_from_table ((List.replicate 118 (1:ℚ)).set 5 (12011/1000))
        6 "J/mol/K" "J/g/K"
      = DispatchResult.looked TableKind.entropyForward AccessResult.unboundLocal ∧
    NISTConversion.access_factor_from_table
        (NISTConversion.create_conversion_table_entropy
          ((List.replicate 118 (1:ℚ)).set 5 (12011/1000))) 6 "J/mol/K" "J/g/K"
      = AccessResult.factor
          (Cell.num (NISTConversion.Sconvert_JmolK_to_JgK 1 (12011/1000))) ∧
    NISTConversion.Sconvert_JmolK_to_JgK 1 (12011/1000) = 1000/12011 := by
  refine ⟨rfl, rfl, ?_⟩
  simp only [NISTConversion.Sconvert_JmolK_to_JgK]
  norm_num

/-- `True` exactly on the dispatcher outcomes that hand a factor back. -/
def returnsFactor : DispatchResult → Bool
  | DispatchResult.looked _ (AccessResult.factor _) => true
  | _ => false

/-- `True` exactly on the two failure outcomes of the dispatcher: an
uncaught `UnboundLocalError` inside the consulted table, or the
invalid-input message of the trailing `else`. -/
def crashOrInvalid : DispatchResult → Bool
  | DispatchResult.looked _ AccessResult.unboundLocal => true
  | DispatchResult.invalidInput => true
  | _ => false

lemma returnsFactor_false {r : DispatchResult} (h : returnsFactor r = false) :
    ∀ (t : TableKind) (c : Cell),
      r ≠ DispatchResult.looked t (AccessResult.factor c) := by
  intro t c hr
  subst hr
  simp [returnsFactor] at h

lemma crashOrInvalid_true {r : DispatchResult} (h : crashOrInvalid r = true) :
    r = DispatchResult.invalidInput ∨
      ∃ t, r = DispatchResult.looked t AccessResult.unboundLocal := by
  cases r with
  | invalidInput => exact Or.inl rfl
  | looked t a =>
    cases a with
    | unboundLocal => exact Or.inr ⟨t, rfl⟩
    | factor c => simp [crashOrInvalid] at h
    | noRow => simp [crashOrInvalid] at h
    | indexOutOfRange => simp [crashOrInvalid] at h

set_option maxHeartbeats 4000000 in
lemma unsupported_pairs_never_return_factor :
    (lookupUnits.all (fun su => lookupUnits.all (fun eu =>
      decide ((su, eu) ∈ tabulatedPairs) ||
      (!(returnsFactor (scripts.get_factor_from_table (List.replicate 118 1) 6 su eu)) &&
        crashOrInvalid (scripts.get_factor_from_table (List.replicate 118 1) 6 su eu)))))
      = true := by
  decide

/-- C6 counterexample: the lookup (element 6, eV/atom → Mbar-cc/g/K) — both
units individually known, the pair unsupported — is dispatched to the
energy reverse table, where no column jointly matches, and dies with the
uncaught `UnboundLocalError` of the never-assigned column index.  There is
no `UnitPairNotSupported` error anywhere in the code: the failure is an
unhandled exception, not a reported, recoverable error (though indeed no
factor is returned). -/
theorem c6_counterexample_crash_not_reported :
    scripts.get_factor_from_table (List.replicate 118 1) 6 "eV/atom" "Mbar-cc/g/K"
      = DispatchResult.looked TableKind.energyReverse AccessResult.unboundLocal ∧
    (∀ c : Cell, AccessResult.unboundLocal ≠ AccessResult.factor c) :=
  ⟨rfl, fun _ h => AccessResult.noConfusion h⟩

/-- C6 (amended): for every pair of individually known units that labels no
column of any generated table, the lookup fails without returning any
factor — with the uncaught `UnboundLocalError` when a table is consulted,
or with the invalid-input message when the starting unit has no dispatch
branch (`Ry/atom`, due to the C4 defect) — and never returns a factor taken
from a wrong table's column. -/
theorem c6_unsupported_pair_returns_no_factor (su eu : String)
    (hsu : su ∈ lookupUnits) (heu : eu ∈ lookupUnits)
    (hpair : (su, eu) ∉ tabulatedPairs) :
    (∀ (t : TableKind) (c : Cell),
      scripts.get_factor_from_table (List.replicate 118 1) 6 su eu
        ≠ DispatchResult.looked t (AccessResult.factor c)) ∧
    (scripts.get_factor_from_table (List.replicate 118 1) 6 su eu
        = DispatchResult.invalidInput ∨
      ∃ t, scripts.get_factor_from_table (List.replicate 118 1) 6 su eu
        = DispatchResult.looked t AccessResult.unboundLocal) := by
  have h1 := List.all_eq_true.mp unsupported_pairs_never_return_factor su hsu
  have h2 := List.all_eq_true.mp h1 eu heu
  rw [Bool.or_eq_true] at h2
  rcases h2 with hl | hr
  · exact absurd (of_decide_eq_true hl) hpair
  · rw [Bool.and_eq_true] at hr
    obtain ⟨hnf, hci⟩ := hr
    have hnf' : returnsFactor
        (scripts.get_factor_from_table (List.replicate 118 1) 6 su eu) = false := by
      simpa using hnf
    exact ⟨returnsFactor_false hnf', crashOrInvalid_true hci⟩

/-- Witness for C6 (amended) at the pair (eV/atom, Mbar-cc/g/K). -/
theorem c6_unsupported_pair_returns_no_factor_witness :
    (∀ (t : TableKind) (c : Cell),
      scripts.get_factor_from_table (List.replicate 118 1) 6 "eV/atom" "Mbar-cc/g/K"
        ≠ DispatchResult.looked t (AccessResult.factor c)) ∧
    (scripts.get_factor_from_table (List.replicate 118 1) 6 "eV/atom" "Mbar-cc/g/K"
        = DispatchResult.invalidInput ∨
      ∃ t, scripts.get_factor_from_table (List.replicate 118 1) 6 "eV/atom" "Mbar-cc/g/K"
        = DispatchResult.looked t AccessResult.unboundLocal) :=
  c6_unsupported_pair_returns_no_factor "eV/atom" "Mbar-cc/g/K"
    (by decide) (by decide) (by decide)
